import Mathlib

set_option maxHeartbeats 1000000

/-!
Verification development for the competitive-analysis PPT generator
(src/scripts/generate_ppt.py and src/app.py).

The rendering routine is shallowly embedded: Python values that flow through
the renderer (parsed JSON objects, lists, strings, integers) are modelled by
the inductive type PyVal; a slide is a list of positioned shapes; lengths are
rationals measured in EMU (1 inch = 914400 EMU), mirroring pptx.util.Inches.
Fallible steps return Except: a Python exception caught by a try/except block
that re-raises RuntimeError is modelled by an error value wrapped into
GenError.renderError, and the explicit ValueError raised by field validation
by GenError.validationError.  Network fetch and image normalization
(download_and_convert_image) are external effects; they are modelled by an
oracle of type Fetch giving, for each (url, app name) pair, the local path of
the converted image, or none when the fetch or the conversion fails.
File persistence (prs.save) is modelled as the final pure step producing the
output pair; reading and parsing the input JSON file is abstracted: the
embedding starts from the parsed top-level object.

One presentation-library detail is elided uniformly: a freshly created pptx
text frame holds one implicit empty paragraph before any add_paragraph call.
The model records exactly the paragraphs the source adds, in order; the
implicit leading empty paragraph is a constant of the underlying library,
identical in every text box, and no claim depends on it.
-/

namespace PPT

/-- Python values reaching the renderer: parsed JSON data plus the string
and dict values the renderer itself constructs. -/
inductive PyVal where
  | pstr : String → PyVal
  | pint : Int → PyVal
  | plist : List PyVal → PyVal
  | pdict : List (String × PyVal) → PyVal

mutual

/-- Python repr of a value, as used for elements inside str(list)/str(dict). -/
def pyRepr : PyVal → String
  | .pstr s => "\x27" ++ s ++ "\x27"
  | .pint n => toString n
  | .plist l => "[" ++ String.intercalate ", " (pyReprList l) ++ "]"
  | .pdict l => "\x7b" ++ String.intercalate ", " (pyReprPairs l) ++ "\x7d"

def pyReprList : List PyVal → List String
  | [] => []
  | v :: r => pyRepr v :: pyReprList r

def pyReprPairs : List (String × PyVal) → List String
  | [] => []
  | (k, v) :: r => ("\x27" ++ k ++ "\x27: " ++ pyRepr v) :: pyReprPairs r

end

/-- Python str() of a value, as produced by an f-string interpolation. -/
def formatVal : PyVal → String
  | .pstr s => s
  | v => pyRepr v

/-- Python truthiness, as used by the conditions on logo URLs. -/
def pyTruthy : PyVal → Bool
  | .pstr s => !(s == "")
  | .pint n => !(n == 0)
  | .plist l => !l.isEmpty
  | .pdict l => !l.isEmpty

/-- Python iteration (for x in v): lists yield their elements, strings yield
their characters as one-character strings, dicts yield their keys; an int is
not iterable. -/
def pyIter : PyVal → Option (List PyVal)
  | .plist l => some l
  | .pstr s => some (s.toList.map (fun c => .pstr (String.singleton c)))
  | .pdict l => some (l.map (fun p => PyVal.pstr p.1))
  | .pint _ => none

/-- Subscript access v[k]: a key lookup on a dict, failing (KeyError) when
the key is absent; on a non-dict value the subscript also fails (TypeError),
collapsed here to the same failure. -/
def lookupA (v : PyVal) (k : String) : Option PyVal :=
  match v with
  | .pdict l =>
    match l.find? (fun p => p.1 == k) with
    | some p => some p.2
    | none => none
  | _ => none

/-- The message str(KeyError(k)) carries: the key in single quotes. -/
def pyKeyErr (k : String) : String := "\x27" ++ k ++ "\x27"

/-- v[k] in the Except monad, carrying the KeyError message. -/
def lookupE (v : PyVal) (k : String) : Except String PyVal :=
  match lookupA v k with
  | some x => .ok x
  | none => .error (pyKeyErr k)

/-- v[k1][k2]. -/
def item2 (v : PyVal) (k1 k2 : String) : Except String PyVal :=
  match lookupE v k1 with
  | .error e => .error e
  | .ok x => lookupE x k2

/-- v[k1][k2][k3]. -/
def item3 (v : PyVal) (k1 k2 k3 : String) : Except String PyVal :=
  match lookupE v k1 with
  | .error e => .error e
  | .ok x =>
    match lookupE x k2 with
    | .error e => .error e
    | .ok y => lookupE y k3

/-- Key presence (k in data) on the parsed top-level JSON object, kept as an
ordered association list, as in the validation loop of
generate_competitive_analysis_ppt. -/
def hasKeyD (data : List (String × PyVal)) (k : String) : Bool :=
  data.any (fun p => p.1 == k)

/-- data[k] on the top-level object. -/
def lookupD (data : List (String × PyVal)) (k : String) : Option PyVal :=
  match data.find? (fun p => p.1 == k) with
  | some p => some p.2
  | none => none

/-- Whether an Except computation succeeded. -/
def isOkB {ε α : Type} : Except ε α → Bool
  | .ok _ => true
  | .error _ => false

/-- Effect-ordered mapM for Except, mirroring a Python for-loop that stops at
the first raised exception. -/
def exMapM {ε α β : Type} (f : α → Except ε β) : List α → Except ε (List β)
  | [] => .ok []
  | a :: l =>
    match f a with
    | .error e => .error e
    | .ok b =>
      match exMapM f l with
      | .error e => .error e
      | .ok bs => .ok (b :: bs)

/-! The slide model.  Lengths are rationals in EMU, as produced by
pptx.util.Inches; font sizes are rationals in points, as produced by
pptx.util.Pt.  Colors are RGB triples. -/

/-- pptx.util.Inches: EMU per inch is 914400. -/
def Inches (x : ℚ) : ℚ := x * 914400

/-- pptx.util.Pt: font sizes are kept in points. -/
def Pt (x : ℚ) : ℚ := x

/-- Canvas width set by set_slide_size_to_16x9. -/
def SLIDE_W : ℚ := Inches 16

/-- Canvas height set by set_slide_size_to_16x9. -/
def SLIDE_H : ℚ := Inches 9

abbrev RGB := Nat × Nat × Nat

/-- Paragraph alignment values used by the source (PP_ALIGN). -/
inductive PAlign where
  | left
  | center
  deriving DecidableEq

/-- One paragraph added by text_frame.add_paragraph, with the font
properties the source sets; properties the source leaves unset keep the
library default, recorded here as the default field value. -/
structure Paragraph where
  text : String := ""
  size : ℚ := 0
  bold : Bool := false
  level : Nat := 0
  color : Option RGB := none
  align : Option PAlign := none
  spaceAfter : Option ℚ := none
  deriving DecidableEq

/-- Auto-shape geometries used by the source (MSO_SHAPE). -/
inductive AutoForm where
  | rectangle
  | roundedRectangle
  deriving DecidableEq

/-- A positioned visual element on a slide: an auto shape with solid fill
(line color none models line.fill.background()), a text box, or a picture
(picture dimensions are optional, as in shapes.add_picture where the
unspecified one is derived from the image aspect ratio). -/
inductive Shape where
  | autoShape (form : AutoForm) (left top w h : ℚ) (fill : RGB)
      (line : Option RGB) (wordWrap : Bool) (paras : List Paragraph)
  | textbox (left top w h : ℚ) (wordWrap : Bool) (paras : List Paragraph)
  | picture (path : String) (left top : ℚ) (pw ph : Option ℚ)
  deriving DecidableEq

/-- Which template produced a slide (the Deck Assembler appends slides by
calling a fixed template function per step; the tag records the producing
template). -/
inductive SlideKind where
  | title
  | appHeader
  | content
  | comparison
  | summary
  | ending
  deriving DecidableEq

/-- Text placed into the title placeholder provided by the slide layout
(shapes.title), used only by the comparison template. -/
structure PhPara where
  text : String
  size : ℚ
  color : Option RGB := none
  deriving DecidableEq

/-- One slide: the producing template, the pptx layout index it was added
with, the optional layout title placeholder, and the shapes added to it in
order. -/
structure Slide where
  kind : SlideKind
  layout : Nat
  phTitle : Option PhPara := none
  shapes : List Shape
  deriving DecidableEq

/-- Full-canvas background rectangle with solid fill and no outline, added
first by every template. -/
def bgRect (w h : ℚ) (c : RGB) : Shape :=
  .autoShape .rectangle 0 0 w h c none false []

/-- The fetch-and-normalize oracle: download_and_convert_image(url, app_name)
either yields the path of the locally converted PNG or fails (returns None)
for any network, SSL or decoding error. -/
abbrev Fetch := PyVal → PyVal → Option String

/-- add_title_slide(prs, title, subtitle): background, left bar, title box,
subtitle box.  Assigning a non-string to paragraph.text raises, so both
arguments must be strings for the step to succeed. -/
def add_title_slide (w h : ℚ) (title subtitle : PyVal) : Except String Slide :=
  match title, subtitle with
  | .pstr t, .pstr st =>
    .ok { kind := .title, layout := 0,
          shapes :=
            [ bgRect w h (240, 248, 255),
              .autoShape .rectangle 0 0 (Inches 1) h (30, 144, 255) none false [],
              .textbox (Inches 2) (Inches 3) (Inches 12) (Inches 1.5) false
                [{ text := t, size := Pt 54, bold := true,
                   color := some (30, 144, 255), align := some .left }],
              .textbox (Inches 2) (Inches 4.5) (Inches 12) (Inches 1) false
                [{ text := st, size := Pt 32,
                   color := some (100, 100, 100), align := some .left }] ] }
  | _, _ => .error "text must be a string"

/-- The bulleted paragraphs produced for one content value by the loop of
add_content_slide: one bullet per element for a list, one key-colon-value
bullet per entry for a dict, one bullet with str(value) otherwise. -/
def valueParas : PyVal → List Paragraph
  | .plist items =>
    items.map (fun item =>
      { text := "• " ++ formatVal item, size := Pt 18, level := 1,
        color := some (80, 80, 80) })
  | .pdict entries =>
    entries.map (fun e =>
      { text := "• " ++ e.1 ++ ": " ++ formatVal e.2, size := Pt 18, level := 1,
        color := some (80, 80, 80) })
  | v =>
    [{ text := "• " ++ formatVal v, size := Pt 18, level := 1,
       color := some (80, 80, 80) }]

/-- The full paragraph list of the content text box of add_content_slide:
for each key/value entry in order, a bold header paragraph followed by the
paragraphs of the value. -/
def contentParasOf : List (String × PyVal) → List Paragraph
  | [] => []
  | (k, v) :: rest =>
    ({ text := k ++ ":", bold := true, size := Pt 24,
       color := some (60, 60, 60) } : Paragraph) :: valueParas v ++ contentParasOf rest

/-- add_content_slide(prs, title, content, app_icon_url, app_name): white
background, an optional icon picture in the top right corner when the icon
URL and name are truthy and the download succeeds, the title text box (left
fixed at one inch, width narrowed from 13 to 11 inches only when the icon
was embedded), and the content text box. -/
def add_content_slide (fetch : Fetch) (w h : ℚ) (title : String)
    (content : List (String × PyVal)) (icon : Option PyVal) (name : PyVal) : Slide :=
  let fetched : Option String :=
    match icon with
    | some u => if pyTruthy u && pyTruthy name then fetch u name else none
    | none => none
  let titleWidth : ℚ :=
    match fetched with
    | some _ => Inches 11
    | none => Inches 13
  let picShapes : List Shape :=
    match fetched with
    | some p => [.picture p (w - Inches 1.5) (Inches 0.5) none (some (Inches 1))]
    | none => []
  { kind := .content, layout := 1,
    shapes :=
      bgRect w h (255, 255, 255) :: picShapes ++
        [ .textbox (Inches 1) (Inches 0.5) titleWidth (Inches 1) false
            [{ text := title, size := Pt 36, bold := true,
               color := some (30, 144, 255) }],
          .textbox (Inches 1) (Inches 1.8) (Inches 14) (Inches 6) true
            (contentParasOf content) ] }

/-- add_app_header_slide(prs, app_name, app_logo_url): light background; when
the logo URL is truthy and the fetch succeeds, a rounded logo frame and the
logo picture above the title; the title text box is horizontally centred, and
vertically centred when there is no logo. -/
def add_app_header_slide (fetch : Fetch) (w h : ℚ) (name : PyVal)
    (logo : Option PyVal) : Slide :=
  let logoPathRes : Option String :=
    match logo with
    | some u => if pyTruthy u then fetch u name else none
    | none => none
  let vc := h / 2
  let logoH := Inches 1.8
  let titleH := Inches 1
  let totalH := logoH + Inches 0.5 + titleH
  let startY := vc - totalH / 2
  let titleLeft := (w - Inches 10) / 2
  let titlePara : Paragraph :=
    { text := formatVal name ++ " 應用程式分析", size := Pt 40, bold := true,
      color := some (30, 144, 255), align := some .center }
  match logoPathRes with
  | some p =>
    let logoW := Inches 1.8
    let logoLeft := (w - logoW) / 2
    let iconW := Inches 1.4
    let iconLeft := logoLeft + (logoW - iconW) / 2
    let iconTop := startY + (logoH - iconW) / 2
    let titleTop := startY + logoH + Inches 0.5
    { kind := .appHeader, layout := 1,
      shapes :=
        [ bgRect w h (248, 250, 252),
          .autoShape .roundedRectangle logoLeft startY logoW logoH
            (255, 255, 255) (some (30, 144, 255)) false [],
          .picture p iconLeft iconTop (some iconW) none,
          .textbox titleLeft titleTop (Inches 10) titleH false [titlePara] ] }
  | none =>
    let titleTop := vc - titleH / 2
    { kind := .appHeader, layout := 1,
      shapes :=
        [ bgRect w h (248, 250, 252),
          .textbox titleLeft titleTop (Inches 10) titleH false [titlePara] ] }

/-- add_ending_slide(prs): fixed literal title and subtitle. -/
def add_ending_slide (w h : ℚ) : Slide :=
  { kind := .ending, layout := 0,
    shapes :=
      [ bgRect w h (240, 248, 255),
        .autoShape .rectangle 0 0 (Inches 1) h (30, 144, 255) none false [],
        .textbox (Inches 2) (Inches 3) (Inches 12) (Inches 1.5) false
          [{ text := "謝謝聆聽", size := Pt 54, bold := true,
             color := some (30, 144, 255), align := some .left }],
        .textbox (Inches 2) (Inches 4.5) (Inches 12) (Inches 1) false
          [{ text := "如有任何問題，歡迎提出討論", size := Pt 32,
             color := some (100, 100, 100), align := some .left }] ] }

/-- Iteration in the Except monad, with a TypeError message for an int. -/
def pyIterE (v : PyVal) : Except String (List PyVal) :=
  match pyIter v with
  | some l => .ok l
  | none => .error "\x27int\x27 object is not iterable"

/-- The bulleted item paragraphs of one summary column. -/
def summaryItemParas (items : List PyVal) : List Paragraph :=
  items.map (fun item =>
    { text := "• " ++ formatVal item, size := Pt 16,
      color := some (60, 60, 60), spaceAfter := some (Pt 10) })

/-- The three item lists consumed by add_summary_slide, with the lookups and
iterations in Python evaluation order: dataSupport, keyFindings,
recommendations. -/
def summaryItems (sd : PyVal) :
    Except String (List PyVal × List PyVal × List PyVal) :=
  match lookupE sd "dataSupport" with
  | .error e => .error e
  | .ok ds =>
    match pyIterE ds with
    | .error e => .error e
    | .ok dsItems =>
      match lookupE sd "keyFindings" with
      | .error e => .error e
      | .ok kf =>
        match pyIterE kf with
        | .error e => .error e
        | .ok kfItems =>
          match lookupE sd "recommendations" with
          | .error e => .error e
          | .ok rc =>
            match pyIterE rc with
            | .error e => .error e
            | .ok rcItems => .ok (dsItems, kfItems, rcItems)

/-- add_summary_slide(prs, summary_data): white background, centred title,
then three fixed-width coloured columns (data support, key findings,
recommendations), each a rectangle with a centred title text box and a
bulleted content text box.  Fails when one of the three keys is missing or
its value is not iterable. -/
def add_summary_slide (w h : ℚ) (sd : PyVal) : Except String Slide :=
  let colW := Inches 4.5
  let colH := Inches 5.5
  let g := Inches 0.7
  let totalW := colW * 3 + g * 2
  let startLeft := (w - totalW) / 2
  let top := Inches 2.2
  let middleLeft := startLeft + colW + g
  let rightLeft := middleLeft + colW + g
  match summaryItems sd with
  | .error e => .error e
  | .ok (dsItems, kfItems, rcItems) =>
    .ok { kind := .summary, layout := 1,
          shapes :=
          [ bgRect w h (255, 255, 255),
            .textbox (Inches 1) (Inches 0.5) (Inches 14) (Inches 1) false
              [{ text := "競品分析總結", size := Pt 40, bold := true,
                 color := some (30, 144, 255), align := some .center }],
            .autoShape .rectangle startLeft top colW colH (240, 248, 255)
              (some (173, 216, 230)) false [],
            .textbox startLeft (top + Inches 0.4) colW (Inches 0.6) false
              [{ text := "關鍵數據", size := Pt 24, bold := true,
                 color := some (30, 144, 255), align := some .center }],
            .textbox (startLeft + Inches 0.3) (top + Inches 1.3)
              (colW - Inches 0.6) (colH - Inches 1.5) true (summaryItemParas dsItems),
            .autoShape .rectangle middleLeft top colW colH (240, 255, 240)
              (some (144, 238, 144)) false [],
            .textbox middleLeft (top + Inches 0.4) colW (Inches 0.6) false
              [{ text := "關鍵發現", size := Pt 24, bold := true,
                 color := some (46, 204, 113), align := some .center }],
            .textbox (middleLeft + Inches 0.3) (top + Inches 1.3)
              (colW - Inches 0.6) (colH - Inches 1.5) true (summaryItemParas kfItems),
            .autoShape .rectangle rightLeft top colW colH (255, 248, 240)
              (some (250, 214, 165)) false [],
            .textbox rightLeft (top + Inches 0.4) colW (Inches 0.6) false
              [{ text := "具體建議", size := Pt 24, bold := true,
                 color := some (230, 126, 34), align := some .center }],
            .textbox (rightLeft + Inches 0.3) (top + Inches 1.3)
              (colW - Inches 0.6) (colH - Inches 1.5) true (summaryItemParas rcItems) ] }

/-- add_comparison_content(text_frame, app_data): the body of this function
in the source is a bare pass statement, so the text frame is returned with no
paragraph added. -/
def add_comparison_content (tf : List Paragraph) (app_data : PyVal) : List Paragraph :=
  tf

/-- One comparison box of add_comparison_slide, for the app at 0-based index
i: a rounded rectangle at start_left + (box_width + gap) * i holding the app
name paragraph followed by whatever add_comparison_content adds. -/
def comparisonBox (startLeft top bw bh g : ℚ) (i : Nat) (app : PyVal) :
    Except String Shape :=
  match lookupA app "name" with
  | some (.pstr nm) =>
    .ok (.autoShape .roundedRectangle (startLeft + (bw + g) * i) top bw bh
          (245, 245, 245) (some (200, 200, 200)) true
          (add_comparison_content
            [{ text := nm, size := Pt 20, bold := true, align := some .center }] app))
  | some _ => .error "text must be a string"
  | none => .error (pyKeyErr "name")

/-- The for-loop of add_comparison_slide over enumerate(apps_data). -/
def comparisonBoxes (startLeft top bw bh g : ℚ) : Nat → List PyVal →
    Except String (List Shape)
  | _, [] => .ok []
  | i, app :: rest =>
    match comparisonBox startLeft top bw bh g i app with
    | .error e => .error e
    | .ok b =>
      match comparisonBoxes startLeft top bw bh g (i + 1) rest with
      | .error e => .error e
      | .ok bs => .ok (b :: bs)

/-- add_comparison_slide(prs, title, apps_data): white background, layout
title placeholder, and one equal-width box per app with
start_left = (slide_width - (box_width * n + gap * (n - 1))) / 2. -/
def add_comparison_slide (w h : ℚ) (title : String) (apps_data : List PyVal) :
    Except String Slide :=
  let boxW := Inches 4.5
  let boxH := Inches 6
  let g := Inches 0.5
  let n : ℚ := apps_data.length
  let startLeft := (w - (boxW * n + g * (n - 1))) / 2
  let top := Inches 2
  match comparisonBoxes startLeft top boxW boxH g 0 apps_data with
  | .error e => .error e
  | .ok boxes =>
    .ok { kind := .comparison, layout := 1,
          phTitle := some { text := title, size := Pt 36, color := some (30, 144, 255) },
          shapes := bgRect w h (255, 255, 255) :: boxes }

/-- The content mapping of the app Overview slide, with the lookups of the
source evaluated in Python order: ratings.ios, ratings.android,
reviews.count, then the three features lists. -/
def buildOverviewContent (app : PyVal) : Except String (List (String × PyVal)) :=
  match item2 app "ratings" "ios" with
  | .error e => .error e
  | .ok ios =>
  match item2 app "ratings" "android" with
  | .error e => .error e
  | .ok android =>
  match item2 app "reviews" "count" with
  | .error e => .error e
  | .ok cnt =>
  match item2 app "features" "core" with
  | .error e => .error e
  | .ok core =>
  match item2 app "features" "advantages" with
  | .error e => .error e
  | .ok adv =>
  match item2 app "features" "improvements" with
  | .error e => .error e
  | .ok imp =>
  .ok [ ("基本資訊", .pdict
          [ ("iOS 評分", .pstr (formatVal ios ++ " ⭐")),
            ("Android 評分", .pstr (formatVal android ++ " ⭐")),
            ("總評論數", .pstr (formatVal cnt ++ " 則")) ]),
        ("核心功能", core),
        ("主要優勢", adv),
        ("待改進項目", imp) ]

/-- The content mapping of the app UX Analysis slide. -/
def buildUxContent (app : PyVal) : Except String (List (String × PyVal)) :=
  match item2 app "uxScores" "memberlogin" with
  | .error e => .error e
  | .ok ml =>
  match item2 app "uxScores" "search" with
  | .error e => .error e
  | .ok se =>
  match item2 app "uxScores" "product" with
  | .error e => .error e
  | .ok pr =>
  match item2 app "uxScores" "checkout" with
  | .error e => .error e
  | .ok ck =>
  match item2 app "uxScores" "service" with
  | .error e => .error e
  | .ok sv =>
  match item2 app "uxScores" "other" with
  | .error e => .error e
  | .ok ot =>
  match item2 app "uxAnalysis" "strengths" with
  | .error e => .error e
  | .ok st =>
  match item2 app "uxAnalysis" "improvements" with
  | .error e => .error e
  | .ok im =>
  match item2 app "uxAnalysis" "summary" with
  | .error e => .error e
  | .ok su =>
  .ok [ ("用戶體驗評分", .pdict
          [ ("會員登入", .pstr (formatVal ml ++ "%")),
            ("搜尋功能", .pstr (formatVal se ++ "%")),
            ("商品相關", .pstr (formatVal pr ++ "%")),
            ("結帳付款", .pstr (formatVal ck ++ "%")),
            ("客戶服務", .pstr (formatVal sv ++ "%")),
            ("其他功能", .pstr (formatVal ot ++ "%")) ]),
        ("優勢分析", st),
        ("改進建議", im),
        ("分析摘要", su) ]

/-- The content mapping of the app Review Analysis slide. -/
def buildReviewContent (app : PyVal) : Except String (List (String × PyVal)) :=
  match item3 app "reviews" "stats" "positive" with
  | .error e => .error e
  | .ok pos =>
  match item3 app "reviews" "stats" "negative" with
  | .error e => .error e
  | .ok neg =>
  match item3 app "reviews" "analysis" "advantages" with
  | .error e => .error e
  | .ok adv =>
  match item3 app "reviews" "analysis" "improvements" with
  | .error e => .error e
  | .ok imp =>
  match item3 app "reviews" "analysis" "summary" with
  | .error e => .error e
  | .ok su =>
  .ok [ ("評論統計", .pdict
          [ ("正面評價", .pstr (formatVal pos ++ "%")),
            ("負面評價", .pstr (formatVal neg ++ "%")) ]),
        ("用戶好評項目", adv),
        ("用戶反饋問題", imp),
        ("評論分析摘要", su) ]

/-- add_app_analysis_slide(prs, app): appends the app header slide and then
the three content slides (Overview, UX Analysis, Review Analysis), with the
failure points of the source in Python evaluation order: the name subscript,
then each content mapping in turn. -/
def add_app_analysis_slide (fetch : Fetch) (app : PyVal) :
    Except String (List Slide) :=
  match lookupE app "name" with
  | .error e => .error e
  | .ok name =>
    let logo := lookupA app "logo"
    let hdr := add_app_header_slide fetch SLIDE_W SLIDE_H name logo
    match buildOverviewContent app with
    | .error e => .error e
    | .ok oc =>
      let s1 := add_content_slide fetch SLIDE_W SLIDE_H (formatVal name ++ " - 概述") oc logo name
      match buildUxContent app with
      | .error e => .error e
      | .ok uc =>
        let s2 := add_content_slide fetch SLIDE_W SLIDE_H (formatVal name ++ " - 用戶體驗分析") uc logo name
        match buildReviewContent app with
        | .error e => .error e
        | .ok rc =>
          let s3 := add_content_slide fetch SLIDE_W SLIDE_H (formatVal name ++ " - 評論分析") rc logo name
          .ok [hdr, s1, s2, s3]

/-- The error taxonomy of generate_competitive_analysis_ppt: ValueError for
the validation of required fields, RuntimeError for any failure inside one of
the slide-construction try blocks. -/
inductive GenError where
  | validationError : String → GenError
  | renderError : String → GenError
  deriving DecidableEq

/-- The required top-level fields, in source order. -/
def required_fields : List String := ["title", "date", "apps"]

/-- The title-slide block of generate_competitive_analysis_ppt: any failure
is re-raised as a RuntimeError with this prefix.  The key subscripts cannot
fail after validation; a hypothetical failure would also be caught by the
same try block. -/
def titleStep (data : List (String × PyVal)) : Except GenError Slide :=
  match lookupD data "title", lookupD data "date" with
  | some t, some d =>
    match add_title_slide SLIDE_W SLIDE_H t d with
    | .ok s => .ok s
    | .error e => .error (.renderError ("Failed to add title slide: " ++ e))
  | _, _ => .error (.renderError "Failed to add title slide: missing field")

/-- The per-app loop of generate_competitive_analysis_ppt: iterate the apps
value, appending four slides per app; any failure is re-raised as a
RuntimeError with this prefix. -/
def appsStep (fetch : Fetch) (data : List (String × PyVal)) :
    Except GenError (List Slide) :=
  match lookupD data "apps" with
  | none => .error (.renderError "Failed to process app data: missing field")
  | some apps =>
    match pyIter apps with
    | none => .error (.renderError ("Failed to process app data: " ++ "\x27int\x27 object is not iterable"))
    | some l =>
      match exMapM (add_app_analysis_slide fetch) l with
      | .ok blocks => .ok blocks.flatten
      | .error e => .error (.renderError ("Failed to process app data: " ++ e))

/-- The summary block of generate_competitive_analysis_ppt: one summary slide
exactly when the summary key is present; any failure is re-raised as a
RuntimeError with this prefix. -/
def summaryStep (data : List (String × PyVal)) : Except GenError (List Slide) :=
  if hasKeyD data "summary" then
    match lookupD data "summary" with
    | some sd =>
      match add_summary_slide SLIDE_W SLIDE_H sd with
      | .ok s => .ok [s]
      | .error e => .error (.renderError ("Failed to add summary slide: " ++ e))
    | none => .error (.renderError "Failed to add summary slide: missing field")
  else .ok []

/-- The deck assembly of generate_competitive_analysis_ppt, from the parsed
top-level JSON object: validate the required fields, then title slide, the
per-app blocks, the conditional summary slide, and the ending slide. -/
def buildDeck (fetch : Fetch) (data : List (String × PyVal)) :
    Except GenError (List Slide) :=
  let missing := required_fields.filter (fun f => !(hasKeyD data f))
  if missing.isEmpty then
    match titleStep data with
    | .error e => .error e
    | .ok ts =>
      match appsStep fetch data with
      | .error e => .error e
      | .ok appSlides =>
        match summaryStep data with
        | .error e => .error e
        | .ok sumSlides =>
          .ok (ts :: appSlides ++ sumSlides ++ [add_ending_slide SLIDE_W SLIDE_H])
  else
    .error (.validationError
      ("Missing required fields in input data: " ++ String.intercalate ", " missing))

/-- generate_competitive_analysis_ppt(input_file, output_file): loading and
parsing the input file is abstracted (the parsed top-level object is the
input); saving is the final step, returning the output path together with the
assembled deck.  A validation or rendering failure aborts before the save. -/
def generate_competitive_analysis_ppt (fetch : Fetch)
    (data : List (String × PyVal)) (output_file : String) :
    Except GenError (String × List Slide) :=
  (buildDeck fetch data).map (fun deck => (output_file, deck))

/-! Filesystem model for the temporary storage of one fetch-and-normalize
call.  The state is the list of temporary paths currently existing.  One call
of download_and_convert_image can stop at three points: the HTTP download
raises (after the temp directory was already created by tempfile.mkdtemp),
the image decode or conversion raises (after the original bytes were written),
or everything succeeds (original and converted files both written).  The
except-branch of the source only logs and returns None: it deletes nothing. -/

/-- Where in one fetch-and-normalize call the first failure occurs, if any. -/
inductive FetchOutcome where
  | netFail
  | decodeFail
  | fetchOk
  deriving DecidableEq

/-- os.path.join(temp_dir, app_name + "_original"). -/
def origPath (dir nm : String) : String := dir ++ "/" ++ nm ++ "_original"

/-- os.path.join(temp_dir, app_name + "_converted.png"). -/
def convPath (dir nm : String) : String := dir ++ "/" ++ nm ++ "_converted.png"

/-- download_and_convert_image(url, app_name) as a transition on the
temporary filesystem: mkdtemp creates the directory, the download writes the
original file, the conversion writes the PNG; a failure returns None with no
deletion (the except branch of the source only logs). -/
def download_and_convert_image (o : FetchOutcome) (dir nm : String)
    (fs : List String) : Option String × List String :=
  let fs1 := fs ++ [dir]
  match o with
  | .netFail => (none, fs1)
  | .decodeFail => (none, fs1 ++ [origPath dir nm])
  | .fetchOk => (some (convPath dir nm), fs1 ++ [origPath dir nm, convPath dir nm])

/-- The cleanup block shared by add_content_slide and add_app_header_slide,
run only when a converted image path was returned: remove the converted file,
remove the original file if it exists, and remove the temp directory if it
exists (os.rmdir succeeds only on an empty directory; on a non-empty one it
raises, which the surrounding try swallows, leaving the directory behind).
The source recovers the directory as os.path.dirname of the converted path,
which is the dir argument here. -/
def cleanup_temp (conv dir nm : String) (fs : List String) : List String :=
  let fs1 := fs.erase conv
  let fs2 := if origPath dir nm ∈ fs1 then fs1.erase (origPath dir nm) else fs1
  if dir ∈ fs2 then
    (if fs2.any (fun p => (p != dir) && (dir ++ "/").isPrefixOf p) then fs2
     else fs2.erase dir)
  else fs2

/-- The temporary-filesystem effect of the icon handling of
add_content_slide: one fetch-and-normalize call, then the cleanup block when
and only when a converted path was returned. -/
def add_content_slide_fs (o : FetchOutcome) (dir nm : String)
    (fs : List String) : List String :=
  match download_and_convert_image o dir nm fs with
  | (some conv, fs1) => cleanup_temp conv dir nm fs1
  | (none, fs1) => fs1

/-- The temporary-filesystem effect of the logo handling of
add_app_header_slide, identical in structure to that of add_content_slide. -/
def add_app_header_slide_fs (o : FetchOutcome) (dir nm : String)
    (fs : List String) : List String :=
  match download_and_convert_image o dir nm fs with
  | (some conv, fs1) => cleanup_temp conv dir nm fs1
  | (none, fs1) => fs1

/-! Observables used by the claim theorems. -/

/-- Whether a shape is a text box. -/
def isTextboxB : Shape → Bool
  | .textbox _ _ _ _ _ _ => true
  | _ => false

/-- Whether a shape is a picture. -/
def isPictureB : Shape → Bool
  | .picture _ _ _ _ _ => true
  | _ => false

/-- The pictures embedded on a slide. -/
def slidePics (s : Slide) : List Shape := s.shapes.filter isPictureB

/-- The text of the first paragraph of the first text box of a slide: for
every template this is the main heading of the slide. -/
def slideMainTitle (s : Slide) : String :=
  match s.shapes.find? isTextboxB with
  | some (.textbox _ _ _ _ _ (p :: _)) => p.text
  | _ => ""

/-- Left edge and width of the first text box of a slide (the title box of a
content slide). -/
def titleBoxLeftWidth (s : Slide) : Option (ℚ × ℚ) :=
  match s.shapes.find? isTextboxB with
  | some (.textbox l _ w _ _ _) => some (l, w)
  | _ => none

/-- Top edge of the first text box of a slide (the title box of an app
header slide). -/
def titleBoxTop (s : Slide) : Option ℚ :=
  match s.shapes.find? isTextboxB with
  | some (.textbox _ t _ _ _ _) => some t
  | _ => none

/-- The paragraph list of the last shape of a slide (the content text box of
a content slide). -/
def lastShapeParas (s : Slide) : List Paragraph :=
  match s.shapes.getLast? with
  | some (.textbox _ _ _ _ _ ps) => ps
  | some (.autoShape _ _ _ _ _ _ _ _ ps) => ps
  | _ => []

/-- The left edge of the shape for the app at index i on a comparison slide
built on a canvas of width c (the box shapes follow the background shape). -/
def cmpBoxLeftOf (c : ℚ) (title : String) (apps : List PyVal) (i : Nat) :
    Option ℚ :=
  match add_comparison_slide c SLIDE_H title apps with
  | .ok slide =>
    match (slide.shapes.drop 1)[i]? with
    | some (.autoShape _ l _ _ _ _ _ _ _) => some l
    | _ => none
  | .error _ => none

/-- The width of the shape for the app at index i on a comparison slide. -/
def cmpBoxWidthOf (c : ℚ) (title : String) (apps : List PyVal) (i : Nat) :
    Option ℚ :=
  match add_comparison_slide c SLIDE_H title apps with
  | .ok slide =>
    match (slide.shapes.drop 1)[i]? with
    | some (.autoShape _ _ _ w _ _ _ _ _) => some w
    | _ => none
  | .error _ => none

/-- The paragraphs of the box for the app at index i on a comparison slide. -/
def cmpBoxParasOf (c : ℚ) (title : String) (apps : List PyVal) (i : Nat) :
    Option (List Paragraph) :=
  match add_comparison_slide c SLIDE_H title apps with
  | .ok slide =>
    match (slide.shapes.drop 1)[i]? with
    | some (.autoShape _ _ _ _ _ _ _ _ ps) => some ps
    | _ => none
  | .error _ => none

/-- The left edge of the i-th summary column box (i < 3): on the summary
slide the column boxes sit at shape indices 2, 5 and 8. -/
def sumBoxLeftOf (c : ℚ) (sd : PyVal) (i : Nat) : Option ℚ :=
  match add_summary_slide c SLIDE_H sd with
  | .ok slide =>
    match slide.shapes[2 + 3 * i]? with
    | some (.autoShape _ l _ _ _ _ _ _ _) => some l
    | _ => none
  | .error _ => none

/-! Concrete inputs used by witnesses and counterexamples. -/

/-- The always-failing fetch oracle: every logo download fails. -/
def fetchNone : Fetch := fun _ _ => none

/-- A fully populated app entry. -/
def appA : PyVal := .pdict
  [ ("name", .pstr "AppA"),
    ("logo", .pstr "https://example.com/a.png"),
    ("ratings", .pdict [("ios", .pint 4), ("android", .pint 4)]),
    ("reviews", .pdict
      [ ("count", .pint 120),
        ("stats", .pdict [("positive", .pint 70), ("negative", .pint 30)]),
        ("analysis", .pdict
          [ ("advantages", .plist [.pstr "介面直覺"]),
            ("improvements", .plist [.pstr "載入偏慢"]),
            ("summary", .pstr "整體正面") ]) ]),
    ("features", .pdict
      [ ("core", .plist [.pstr "快速搜尋"]),
        ("advantages", .plist [.pstr "會員整合"]),
        ("improvements", .plist [.pstr "結帳流程"]) ]),
    ("uxScores", .pdict
      [ ("memberlogin", .pint 80), ("search", .pint 82), ("product", .pint 75),
        ("checkout", .pint 78), ("service", .pint 70), ("other", .pint 60) ]),
    ("uxAnalysis", .pdict
      [ ("strengths", .plist [.pstr "操作流暢"]),
        ("improvements", .plist [.pstr "客服入口"]),
        ("summary", .pstr "體驗中上") ]) ]

/-- A reviews object with stats and analysis but no count key. -/
def reviewsNoCountL : List (String × PyVal) :=
  [ ("stats", .pdict [("positive", .pint 70), ("negative", .pint 30)]),
    ("analysis", .pdict
      [ ("advantages", .plist [.pstr "介面直覺"]),
        ("improvements", .plist [.pstr "載入偏慢"]),
        ("summary", .pstr "整體正面") ]) ]

/-- The same app entry with the count key removed from reviews. -/
def appNoCount : PyVal := .pdict
  [ ("name", .pstr "AppA"),
    ("logo", .pstr "https://example.com/a.png"),
    ("ratings", .pdict [("ios", .pint 4), ("android", .pint 4)]),
    ("reviews", .pdict reviewsNoCountL),
    ("features", .pdict
      [ ("core", .plist [.pstr "快速搜尋"]),
        ("advantages", .plist [.pstr "會員整合"]),
        ("improvements", .plist [.pstr "結帳流程"]) ]),
    ("uxScores", .pdict
      [ ("memberlogin", .pint 80), ("search", .pint 82), ("product", .pint 75),
        ("checkout", .pint 78), ("service", .pint 70), ("other", .pint 60) ]),
    ("uxAnalysis", .pdict
      [ ("strengths", .plist [.pstr "操作流暢"]),
        ("improvements", .plist [.pstr "客服入口"]),
        ("summary", .pstr "體驗中上") ]) ]

/-- A complete report with one app and no summary. -/
def dataA : List (String × PyVal) :=
  [("title", .pstr "競品分析"), ("date", .pstr "2025-01-01"), ("apps", .plist [appA])]

/-- A report whose single app lacks reviews.count. -/
def dataNoCount : List (String × PyVal) :=
  [("title", .pstr "競品分析"), ("date", .pstr "2025-01-01"),
   ("apps", .plist [appNoCount])]

/-- A report whose apps value is a number, so iteration over it fails. -/
def dataBadApps : List (String × PyVal) :=
  [("title", .pstr "競品分析"), ("date", .pstr "2025-01-01"), ("apps", .pint 5)]

/-- An app summary carrying a name and nonempty comparison data. -/
def appCmp : PyVal := .pdict
  [("name", .pstr "AppA"), ("comparison", .plist [.pstr "行動支付"])]

/-- A second app summary for two-box comparison layouts. -/
def appCmpB : PyVal := .pdict
  [("name", .pstr "AppB"), ("comparison", .plist [.pstr "貨到付款"])]

/-- A concrete summary object with one item per column. -/
def summaryA : PyVal := .pdict
  [ ("dataSupport", .plist [.pstr "平均評分差距 0.3 星"]),
    ("keyFindings", .plist [.pstr "結帳流程是共同痛點"]),
    ("recommendations", .plist [.pstr "優化結帳流程"]) ]

/-! Helper lemmas. -/

theorem hasKeyD_of_lookupD {data : List (String × PyVal)} {k : String} {v : PyVal}
    (h : lookupD data k = some v) : hasKeyD data k = true := by
  unfold lookupD at h
  unfold hasKeyD
  cases hf : data.find? (fun p => p.1 == k) with
  | none => rw [hf] at h; cases h
  | some p =>
    have hp := @List.find?_some (String × PyVal) (fun q => q.1 == k) p data hf
    exact List.any_eq_true.mpr ⟨p, List.mem_of_find?_eq_some hf, hp⟩

theorem missing_nil_of_hasKeys {data : List (String × PyVal)}
    (h1 : hasKeyD data "title" = true) (h2 : hasKeyD data "date" = true)
    (h3 : hasKeyD data "apps" = true) :
    required_fields.filter (fun f => !(hasKeyD data f)) = [] := by
  simp [required_fields, List.filter, h1, h2, h3]

/-- After successful validation, buildDeck is the match chain over the three
assembly steps. -/
theorem buildDeck_eq_steps {fetch : Fetch} {data : List (String × PyVal)}
    (hmiss : required_fields.filter (fun f => !(hasKeyD data f)) = []) :
    buildDeck fetch data =
      match titleStep data with
      | .error e => .error e
      | .ok ts =>
        match appsStep fetch data with
        | .error e => .error e
        | .ok appSlides =>
          match summaryStep data with
          | .error e => .error e
          | .ok sumSlides =>
            .ok (ts :: appSlides ++ sumSlides ++ [add_ending_slide SLIDE_W SLIDE_H]) := by
  simp only [buildDeck, hmiss, List.isEmpty_nil, if_true]

/-! C2: missing required fields give a ValidationError naming them, and the
save step is never reached. -/

/-- C2: for every top-level object lacking any of title, date or apps, the
generator fails with the ValidationError naming exactly the missing fields in
order, and never produces an output pair (the save step is not reached). -/
theorem missing_fields_validation_error (fetch : Fetch)
    (data : List (String × PyVal)) (path : String)
    (h : required_fields.filter (fun f => !(hasKeyD data f)) ≠ []) :
    generate_competitive_analysis_ppt fetch data path =
      .error (.validationError ("Missing required fields in input data: " ++
        String.intercalate ", " (required_fields.filter (fun f => !(hasKeyD data f))))) ∧
    ∀ out, generate_competitive_analysis_ppt fetch data path ≠ .ok out := by
  have hne : (required_fields.filter (fun f => !(hasKeyD data f))).isEmpty = false := by
    simpa [List.isEmpty_iff] using h
  have hmain : generate_competitive_analysis_ppt fetch data path =
      .error (.validationError ("Missing required fields in input data: " ++
        String.intercalate ", " (required_fields.filter (fun f => !(hasKeyD data f))))) := by
    simp [generate_competitive_analysis_ppt, buildDeck, hne, Except.map]
  exact ⟨hmain, by intro out hout; rw [hmain] at hout; cases hout⟩

/-- Witness for C2 at the empty top-level object: all three fields are
missing and the generator returns the ValidationError naming all three. -/
theorem missing_fields_validation_error_witness :
    required_fields.filter (fun f => !(hasKeyD ([] : List (String × PyVal)) f)) ≠ [] ∧
    generate_competitive_analysis_ppt fetchNone [] "output/out.pptx" =
      .error (.validationError ("Missing required fields in input data: " ++
        String.intercalate ", "
          (required_fields.filter (fun f => !(hasKeyD ([] : List (String × PyVal)) f))))) :=
  ⟨by decide, (missing_fields_validation_error fetchNone [] "output/out.pptx" (by decide)).1⟩

/-! C8: determinism and output-path independence of the assembled deck. -/

/-- C8: the assembled document is a deterministic function of the parsed
input and of the fetch results; in particular two calls with identical input
and distinct output paths produce identical decks (the output path never
influences the deck). -/
theorem generate_deterministic (fetch : Fetch) (data : List (String × PyVal))
    (p1 p2 : String) :
    (generate_competitive_analysis_ppt fetch data p1).map Prod.snd =
      (generate_competitive_analysis_ppt fetch data p2).map Prod.snd := by
  unfold generate_competitive_analysis_ppt
  cases buildDeck fetch data <;> rfl

/-! C9: temporary-file lifetime of one fetch-and-normalize call. -/

theorem origPath_ne_dir (dir nm : String) : origPath dir nm ≠ dir := by
  intro h
  have hl := congrArg String.length h
  have h1 : ("/" : String).length = 1 := rfl
  have h2 : ("_original" : String).length = 9 := rfl
  simp only [origPath, String.length_append, h1, h2] at hl
  omega

theorem convPath_ne_dir (dir nm : String) : convPath dir nm ≠ dir := by
  intro h
  have hl := congrArg String.length h
  have h1 : ("/" : String).length = 1 := rfl
  have h2 : ("_converted.png" : String).length = 14 := rfl
  simp only [convPath, String.length_append, h1, h2] at hl
  omega

theorem convPath_ne_origPath (dir nm : String) : convPath dir nm ≠ origPath dir nm := by
  intro h
  have hl := congrArg String.length h
  have h1 : ("/" : String).length = 1 := rfl
  have h2 : ("_converted.png" : String).length = 14 := rfl
  have h3 : ("_original" : String).length = 9 := rfl
  simp only [convPath, origPath, String.length_append, h1, h2, h3] at hl
  omega

/-- On the success path the caller cleanup removes all three temporary
entries created by the fetch-and-normalize call. -/
theorem cleanup_temp_fresh (dir nm : String) :
    cleanup_temp (convPath dir nm) dir nm [dir, origPath dir nm, convPath dir nm] = [] := by
  have e1 : ([dir, origPath dir nm, convPath dir nm] : List String).erase (convPath dir nm) =
      [dir, origPath dir nm] := by
    rw [List.erase_cons_tail (by simp only [beq_iff_eq]; exact Ne.symm (convPath_ne_dir dir nm)),
        List.erase_cons_tail (by simp only [beq_iff_eq]; exact Ne.symm (convPath_ne_origPath dir nm)),
        List.erase_cons_head]
  have e2 : ([dir, origPath dir nm] : List String).erase (origPath dir nm) = [dir] := by
    rw [List.erase_cons_tail (by simp only [beq_iff_eq]; exact Ne.symm (origPath_ne_dir dir nm)),
        List.erase_cons_head]
  unfold cleanup_temp
  rw [e1]
  dsimp only
  have hmem1 : origPath dir nm ∈ ([dir, origPath dir nm] : List String) := by simp
  rw [if_pos hmem1, e2]
  have hmem2 : dir ∈ ([dir] : List String) := by simp
  rw [if_pos hmem2]
  have hany : (([dir] : List String).any fun p => p != dir && (dir ++ "/").isPrefixOf p) = false := by
    simp
  rw [hany]
  simp

/-- C9 (amended): the success path of the icon and logo handling removes the
converted file, the original file and the temporary directory; but the
failure paths of the fetch-and-normalize call itself delete nothing, leaving
behind the temporary directory (network failure) or the directory plus the
downloaded original (decode failure). -/
theorem temp_cleanup_behavior (dir nm : String) :
    add_content_slide_fs .fetchOk dir nm [] = [] ∧
    add_content_slide_fs .netFail dir nm [] = [dir] ∧
    add_content_slide_fs .decodeFail dir nm [] = [dir, origPath dir nm] ∧
    add_app_header_slide_fs .fetchOk dir nm [] = [] ∧
    add_app_header_slide_fs .netFail dir nm [] = [dir] ∧
    add_app_header_slide_fs .decodeFail dir nm [] = [dir, origPath dir nm] := by
  refine ⟨?_, rfl, rfl, ?_, rfl, rfl⟩ <;>
    simpa [add_content_slide_fs, add_app_header_slide_fs, download_and_convert_image]
      using cleanup_temp_fresh dir nm

/-- C9 counterexample: a fetch that downloads the image but fails to decode
it leaves the temporary directory and the downloaded original file behind:
the failure path of a fetch-and-normalize call releases nothing. -/
theorem temp_cleanup_counterexample :
    add_content_slide_fs .decodeFail "/tmp/t1" "AppA" [] =
      ["/tmp/t1", "/tmp/t1/AppA_original"] ∧
    add_content_slide_fs .decodeFail "/tmp/t1" "AppA" [] ≠ [] :=
  ⟨rfl, by decide⟩

/-! C7: reviews.count is in fact required by the Overview content mapping. -/

/-- C7 (amended): the reviews.count field is not optional: for a report whose
single app carries name, ratings and a reviews object without a count key,
the whole render aborts with the RuntimeError wrapping the KeyError for
count, instead of producing the slides of that app. -/
theorem count_required (fetch : Fetch) (data : List (String × PyVal)) (path : String)
    (t d : String) (app nm ios android : PyVal) (revl : List (String × PyVal))
    (ht : lookupD data "title" = some (.pstr t))
    (hd : lookupD data "date" = some (.pstr d))
    (ha : lookupD data "apps" = some (.plist [app]))
    (hn : lookupA app "name" = some nm)
    (hios : item2 app "ratings" "ios" = .ok ios)
    (hand : item2 app "ratings" "android" = .ok android)
    (hrev : lookupA app "reviews" = some (.pdict revl))
    (hcnt : revl.find? (fun p => p.1 == "count") = none) :
    generate_competitive_analysis_ppt fetch data path =
      .error (.renderError ("Failed to process app data: " ++ pyKeyErr "count")) := by
  have hmiss := missing_nil_of_hasKeys (hasKeyD_of_lookupD ht)
    (hasKeyD_of_lookupD hd) (hasKeyD_of_lookupD ha)
  have h1 : lookupE app "reviews" = .ok (.pdict revl) := by
    unfold lookupE
    rw [hrev]
  have h2 : lookupE (.pdict revl) "count" = .error (pyKeyErr "count") := by
    unfold lookupE lookupA
    dsimp only
    rw [hcnt]
  have hcount : item2 app "reviews" "count" = .error (pyKeyErr "count") := by
    unfold item2
    rw [h1]
    exact h2
  have hov : buildOverviewContent app = .error (pyKeyErr "count") := by
    simp [buildOverviewContent, hios, hand, hcount]
  have happ : add_app_analysis_slide fetch app = .error (pyKeyErr "count") := by
    simp [add_app_analysis_slide, lookupE, hn, hov]
  have happs : appsStep fetch data =
      .error (.renderError ("Failed to process app data: " ++ pyKeyErr "count")) := by
    simp [appsStep, ha, pyIter, exMapM, happ]
  unfold generate_competitive_analysis_ppt
  rw [buildDeck_eq_steps hmiss]
  simp [titleStep, ht, hd, add_title_slide, happs, Except.map]

/-- Witness for C7 (amended) at the concrete report whose app lacks
reviews.count. -/
theorem count_required_witness :
    generate_competitive_analysis_ppt fetchNone dataNoCount "output/out.pptx" =
      .error (.renderError ("Failed to process app data: " ++ pyKeyErr "count")) :=
  count_required fetchNone dataNoCount "output/out.pptx" "競品分析" "2025-01-01"
    appNoCount (.pstr "AppA") (.pint 4) (.pint 4) reviewsNoCountL
    rfl rfl rfl rfl rfl rfl rfl rfl

/-- C7 counterexample: on the otherwise fully populated app entry lacking
only reviews.count, the render does not succeed: it aborts with the
RuntimeError wrapping the KeyError for count, so the three content slides of
that app are never produced. -/
theorem count_optional_counterexample :
    generate_competitive_analysis_ppt fetchNone dataNoCount "out.pptx" =
      .error (.renderError ("Failed to process app data: " ++ "\x27count\x27")) := by
  rfl

/-! C10: the top-level validation checks key presence only; every failure
after it is reported as a RenderError, never as a ValidationError. -/

theorem titleStep_error_form {data : List (String × PyVal)} {e : GenError}
    (h : titleStep data = .error e) : ∃ m, e = .renderError m := by
  unfold titleStep at h
  split at h
  · split at h
    · cases h
    · injection h with h'
      exact ⟨_, h'.symm⟩
  · injection h with h'
    exact ⟨_, h'.symm⟩

theorem appsStep_error_form {fetch : Fetch} {data : List (String × PyVal)}
    {e : GenError} (h : appsStep fetch data = .error e) : ∃ m, e = .renderError m := by
  unfold appsStep at h
  split at h
  · injection h with h'
    exact ⟨_, h'.symm⟩
  · split at h
    · injection h with h'
      exact ⟨_, h'.symm⟩
    · split at h
      · cases h
      · injection h with h'
        exact ⟨_, h'.symm⟩

theorem summaryStep_error_form {data : List (String × PyVal)} {e : GenError}
    (h : summaryStep data = .error e) : ∃ m, e = .renderError m := by
  unfold summaryStep at h
  split at h
  · split at h
    · split at h
      · cases h
      · injection h with h'
        exact ⟨_, h'.symm⟩
    · injection h with h'
      exact ⟨_, h'.symm⟩
  · cases h

/-- C10: for every top-level object holding the three required keys,
whatever the types of their values, validation passes (the generator never
returns a ValidationError), and the run either succeeds or fails with an
internal RenderError. -/
theorem toplevel_validation_key_presence_only (fetch : Fetch)
    (data : List (String × PyVal)) (path : String)
    (h1 : hasKeyD data "title" = true) (h2 : hasKeyD data "date" = true)
    (h3 : hasKeyD data "apps" = true) :
    (∀ m, generate_competitive_analysis_ppt fetch data path ≠
      .error (.validationError m)) ∧
    ((∃ out, generate_competitive_analysis_ppt fetch data path = .ok out) ∨
     (∃ m, generate_competitive_analysis_ppt fetch data path =
       .error (.renderError m))) := by
  have hmiss := missing_nil_of_hasKeys h1 h2 h3
  have hdeck := @buildDeck_eq_steps fetch data hmiss
  have hres : (∃ deck, buildDeck fetch data = .ok deck) ∨
      (∃ m, buildDeck fetch data = .error (.renderError m)) := by
    rw [hdeck]
    cases hts : titleStep data with
    | error e =>
      obtain ⟨m, rfl⟩ := titleStep_error_form hts
      exact .inr ⟨m, rfl⟩
    | ok ts =>
      cases has : appsStep fetch data with
      | error e =>
        obtain ⟨m, rfl⟩ := appsStep_error_form has
        exact .inr ⟨m, rfl⟩
      | ok apps =>
        cases hsm : summaryStep data with
        | error e =>
          obtain ⟨m, rfl⟩ := summaryStep_error_form hsm
          exact .inr ⟨m, rfl⟩
        | ok ss => exact .inl ⟨_, rfl⟩
  constructor
  · intro m hm
    unfold generate_competitive_analysis_ppt at hm
    rcases hres with ⟨deck, hdk⟩ | ⟨m2, hdk⟩ <;> rw [hdk] at hm <;>
      simp [Except.map] at hm
  · rcases hres with ⟨deck, hdk⟩ | ⟨m2, hdk⟩
    · exact .inl ⟨(path, deck), by
        unfold generate_competitive_analysis_ppt
        rw [hdk]
        rfl⟩
    · exact .inr ⟨m2, by
        unfold generate_competitive_analysis_ppt
        rw [hdk]
        rfl⟩

/-- Witness for C10 at a report whose apps value is the number 5: the three
keys are present, validation passes, and the failure while iterating the
apps value surfaces as a RenderError. -/
theorem toplevel_validation_key_presence_only_witness :
    hasKeyD dataBadApps "title" = true ∧ hasKeyD dataBadApps "date" = true ∧
    hasKeyD dataBadApps "apps" = true ∧
    ((∀ m, generate_competitive_analysis_ppt fetchNone dataBadApps "output/out.pptx" ≠
      .error (.validationError m)) ∧
    ((∃ out, generate_competitive_analysis_ppt fetchNone dataBadApps "output/out.pptx" = .ok out) ∨
     (∃ m, generate_competitive_analysis_ppt fetchNone dataBadApps "output/out.pptx" =
       .error (.renderError m)))) :=
  ⟨rfl, rfl, rfl,
   toplevel_validation_key_presence_only fetchNone dataBadApps "output/out.pptx" rfl rfl rfl⟩

/-! C4: the text rendering of a content mapping.  The expected paragraph list
is restated here directly from the specification sentence and proved equal to
what the embedded add_content_slide puts into its content text box. -/

/-- Restated from the spec: each key is rendered as a bold header line. -/
def specHeaderPara (k : String) : Paragraph :=
  { text := k ++ ":", bold := true, size := Pt 24, color := some (60, 60, 60) }

/-- Restated from the spec: one bulleted line. -/
def specBullet (t : String) : Paragraph :=
  { text := "• " ++ t, size := Pt 18, level := 1, color := some (80, 80, 80) }

/-- Restated from the spec: one bulleted line per element if the value is a
sequence; one bulleted key-colon-value line per entry if the value is a
nested mapping; one bulleted line of its string form otherwise. -/
def specValueParas : PyVal → List Paragraph
  | .plist items => items.map (fun e => specBullet (formatVal e))
  | .pdict entries => entries.map (fun e => specBullet (e.1 ++ ": " ++ formatVal e.2))
  | v => [specBullet (formatVal v)]

/-- Restated from the spec: iterate entries in mapping order, a header line
per key followed by the lines of its value. -/
def specContentParas (content : List (String × PyVal)) : List Paragraph :=
  (content.map (fun kv => specHeaderPara kv.1 :: specValueParas kv.2)).flatten

theorem valueParas_eq_spec (v : PyVal) : valueParas v = specValueParas v := by
  cases v with
  | plist items => rfl
  | pdict entries =>
    simp [valueParas, specValueParas, specBullet, String.append_assoc]
  | pstr s => rfl
  | pint n => rfl

theorem contentParasOf_eq_spec (content : List (String × PyVal)) :
    contentParasOf content = specContentParas content := by
  induction content with
  | nil => rfl
  | cons kv rest ih =>
    obtain ⟨k, v⟩ := kv
    simp [contentParasOf, specContentParas, valueParas_eq_spec, specHeaderPara]
    simpa [specContentParas] using ih

/-- C4: the content text box of a Content slide renders the entries of the
content mapping in order, a bold header paragraph per key followed by the
bulleted paragraphs of its value exactly as the specification describes,
independently of the icon handling. -/
theorem content_rendering (fetch : Fetch) (w h : ℚ) (title : String)
    (content : List (String × PyVal)) (icon : Option PyVal) (name : PyVal) :
    lastShapeParas (add_content_slide fetch w h title content icon name) =
      specContentParas content := by
  have hlast : lastShapeParas (add_content_slide fetch w h title content icon name) =
      contentParasOf content := by
    unfold add_content_slide lastShapeParas
    cases icon with
    | none => rfl
    | some u =>
      cases hb : pyTruthy u && pyTruthy name with
      | false =>
        simp only [hb, Bool.false_eq_true, if_false]
        rfl
      | true =>
        simp only [hb, if_true]
        cases hf : fetch u name with
        | none => rfl
        | some p => rfl
  rw [hlast]
  exact contentParasOf_eq_spec content

/-! C3: a failing logo fetch degrades to the no-image layout and never
aborts the render of the app block. -/

/-- C3: for an app entry whose logo fetch fails (any network, SSL or decode
failure makes the oracle return none), the app block still renders: the
header slide and the three content slides are produced, none embeds a
picture, the content slide title boxes keep the default position and width
(one inch from the left, thirteen inches wide), and the header title sits at
the no-logo vertically centred position. -/
theorem logo_fetch_failure_degrades (fetch : Fetch) (app nm lu : PyVal)
    (oc uc rc : List (String × PyVal))
    (hn : lookupA app "name" = some nm)
    (hl : lookupA app "logo" = some lu)
    (hf : fetch lu nm = none)
    (ho : buildOverviewContent app = .ok oc)
    (hu : buildUxContent app = .ok uc)
    (hr : buildReviewContent app = .ok rc) :
    ∃ hdr s1 s2 s3,
      add_app_analysis_slide fetch app = .ok [hdr, s1, s2, s3] ∧
      slidePics hdr = [] ∧ slidePics s1 = [] ∧ slidePics s2 = [] ∧ slidePics s3 = [] ∧
      titleBoxLeftWidth s1 = some (Inches 1, Inches 13) ∧
      titleBoxLeftWidth s2 = some (Inches 1, Inches 13) ∧
      titleBoxLeftWidth s3 = some (Inches 1, Inches 13) ∧
      titleBoxTop hdr = some (SLIDE_H / 2 - Inches 1 / 2) ∧
      hdr.kind = .appHeader ∧ s1.kind = .content ∧ s2.kind = .content ∧
      s3.kind = .content := by
  have hne : lookupE app "name" = .ok nm := by
    unfold lookupE
    rw [hn]
  have hhdr : add_app_header_slide fetch SLIDE_W SLIDE_H nm (some lu) =
      { kind := .appHeader, layout := 1,
        shapes :=
          [ bgRect SLIDE_W SLIDE_H (248, 250, 252),
            .textbox ((SLIDE_W - Inches 10) / 2) (SLIDE_H / 2 - Inches 1 / 2)
              (Inches 10) (Inches 1) false
              [{ text := formatVal nm ++ " 應用程式分析", size := Pt 40, bold := true,
                 color := some (30, 144, 255), align := some .center }] ] } := by
    unfold add_app_header_slide
    cases htr : pyTruthy lu with
    | false =>
      simp only [htr, Bool.false_eq_true, if_false]
    | true =>
      simp only [htr, if_true, hf]
  have hcsl : ∀ (ttl : String) (ct : List (String × PyVal)),
      add_content_slide fetch SLIDE_W SLIDE_H ttl ct (some lu) nm =
      { kind := .content, layout := 1,
        shapes :=
          [ bgRect SLIDE_W SLIDE_H (255, 255, 255),
            .textbox (Inches 1) (Inches 0.5) (Inches 13) (Inches 1) false
              [{ text := ttl, size := Pt 36, bold := true,
                 color := some (30, 144, 255) }],
            .textbox (Inches 1) (Inches 1.8) (Inches 14) (Inches 6) true
              (contentParasOf ct) ] } := by
    intro ttl ct
    unfold add_content_slide
    cases hb : pyTruthy lu && pyTruthy nm with
    | false =>
      simp only [hb, Bool.false_eq_true, if_false]
      rfl
    | true =>
      simp only [hb, if_true, hf]
      rfl
  unfold add_app_analysis_slide
  rw [hne]
  dsimp only
  rw [hl, ho]
  dsimp only
  rw [hu]
  dsimp only
  rw [hr]
  dsimp only
  refine ⟨_, _, _, _, rfl, ?_, ?_, ?_, ?_, ?_, ?_, ?_, ?_, ?_, ?_, ?_, ?_⟩
  all_goals first
    | rfl
    | (rw [hhdr]; try rfl)
    | (rw [hcsl]; try rfl)

/-- Witness for C3: the concrete fully populated app with the always-failing
fetch oracle renders its full four-slide block in the no-image layout. -/
theorem logo_fetch_failure_degrades_witness :
    ∃ hdr s1 s2 s3,
      add_app_analysis_slide fetchNone appA = .ok [hdr, s1, s2, s3] ∧
      slidePics hdr = [] ∧ slidePics s1 = [] ∧ slidePics s2 = [] ∧ slidePics s3 = [] ∧
      titleBoxLeftWidth s1 = some (Inches 1, Inches 13) ∧
      titleBoxLeftWidth s2 = some (Inches 1, Inches 13) ∧
      titleBoxLeftWidth s3 = some (Inches 1, Inches 13) ∧
      titleBoxTop hdr = some (SLIDE_H / 2 - Inches 1 / 2) ∧
      hdr.kind = .appHeader ∧ s1.kind = .content ∧ s2.kind = .content ∧
      s3.kind = .content :=
  logo_fetch_failure_degrades fetchNone appA (.pstr "AppA")
    (.pstr "https://example.com/a.png")
    ((buildOverviewContent appA).toOption.getD [])
    ((buildUxContent appA).toOption.getD [])
    ((buildReviewContent appA).toOption.getD [])
    rfl rfl rfl rfl rfl rfl

/-! C5 and C6: geometry of the comparison boxes and summary columns. -/

/-- Characterization of the comparison-box loop: on success it yields one
rounded box per app, the box for index i sitting at
startLeft + (box_width + gap) * (j + i) and holding exactly the app name
paragraph. -/
theorem comparisonBoxes_ok {startLeft top bw bh g : ℚ} :
    ∀ (j : Nat) (apps : List PyVal) (boxes : List Shape),
      comparisonBoxes startLeft top bw bh g j apps = .ok boxes →
      boxes.length = apps.length ∧
      ∀ i, i < apps.length →
        ∃ app nm l,
          apps[i]? = some app ∧
          lookupA app "name" = some (.pstr nm) ∧
          boxes[i]? = some (.autoShape .roundedRectangle l top bw bh
            (245, 245, 245) (some (200, 200, 200)) true
            [{ text := nm, size := Pt 20, bold := true, align := some .center }]) ∧
          l = startLeft + (bw + g) * ((j : ℚ) + (i : ℚ)) := by
  intro j apps
  induction apps generalizing j with
  | nil =>
    intro boxes h
    unfold comparisonBoxes at h
    injection h with h'
    subst h'
    exact ⟨rfl, fun i hi => absurd hi (Nat.not_lt_zero i)⟩
  | cons app rest ih =>
    intro boxes h
    unfold comparisonBoxes at h
    cases hb : comparisonBox startLeft top bw bh g j app with
    | error e => rw [hb] at h; cases h
    | ok b =>
      rw [hb] at h
      cases hbs : comparisonBoxes startLeft top bw bh g (j + 1) rest with
      | error e => rw [hbs] at h; cases h
      | ok bs =>
        rw [hbs] at h
        injection h with h'
        subst h'
        obtain ⟨hlen, hidx⟩ := ih (j + 1) bs hbs
        have hbox : ∃ nm, lookupA app "name" = some (.pstr nm) ∧
            b = .autoShape .roundedRectangle (startLeft + (bw + g) * (j : ℚ)) top bw bh
              (245, 245, 245) (some (200, 200, 200)) true
              [{ text := nm, size := Pt 20, bold := true, align := some .center }] := by
          unfold comparisonBox at hb
          split at hb
          · injection hb with h2
            exact ⟨_, by assumption, h2.symm⟩
          · cases hb
          · cases hb
        obtain ⟨nm, hnm, rfl⟩ := hbox
        constructor
        · simp [hlen]
        · intro i hi
          cases i with
          | zero =>
            refine ⟨app, nm, startLeft + (bw + g) * (j : ℚ), ?_, hnm, ?_, ?_⟩
            · simp
            · simp
            · push_cast
              ring
          | succ i' =>
            have hi' : i' < rest.length := by simpa using hi
            obtain ⟨app', nm', l', ha', hn', hb', hl'⟩ := hidx i' hi'
            refine ⟨app', nm', l', ?_, hn', ?_, ?_⟩
            · simpa using ha'
            · simpa using hb'
            · rw [hl']
              push_cast
              ring

/-- C5: on a canvas of width c, the left edge of comparison box i out of n
(box width 4.5 in, gap 0.5 in) and of summary column i out of 3 (column
width 4.5 in, gap 0.7 in) both equal
(c - (n * w + (n - 1) * g)) / 2 + i * (w + g), so each group of boxes is
horizontally centred with equal gaps. -/
theorem box_centering :
    (∀ (c : ℚ) (title : String) (apps : List PyVal) (i : Nat),
      i < apps.length →
      isOkB (add_comparison_slide c SLIDE_H title apps) = true →
      cmpBoxLeftOf c title apps i =
        some ((c - ((apps.length : ℚ) * Inches 4.5 +
          ((apps.length : ℚ) - 1) * Inches 0.5)) / 2 +
          (i : ℚ) * (Inches 4.5 + Inches 0.5))) ∧
    (∀ (c : ℚ) (sd : PyVal) (i : Nat),
      i < 3 →
      isOkB (add_summary_slide c SLIDE_H sd) = true →
      sumBoxLeftOf c sd i =
        some ((c - (3 * Inches 4.5 + 2 * Inches 0.7)) / 2 +
          (i : ℚ) * (Inches 4.5 + Inches 0.7))) := by
  constructor
  · intro c title apps i hi hok
    unfold cmpBoxLeftOf
    cases hs : add_comparison_slide c SLIDE_H title apps with
    | error e =>
      rw [hs] at hok
      simp [isOkB] at hok
    | ok slide =>
      unfold add_comparison_slide at hs
      dsimp only at hs
      cases hcb : comparisonBoxes ((c - (Inches 4.5 * (apps.length : ℚ) +
          Inches 0.5 * ((apps.length : ℚ) - 1))) / 2) (Inches 2) (Inches 4.5)
          (Inches 6) (Inches 0.5) 0 apps with
      | error e => rw [hcb] at hs; cases hs
      | ok boxes =>
        rw [hcb] at hs
        injection hs with hs'
        subst hs'
        obtain ⟨hlen, hidx⟩ := comparisonBoxes_ok 0 apps boxes hcb
        obtain ⟨app, nm, l, happ, hnm, hbox, hl⟩ := hidx i hi
        dsimp only [List.drop]
        rw [hbox]
        rw [hl]
        push_cast
        ring_nf
  · intro c sd i hi hok
    unfold sumBoxLeftOf
    cases hs : add_summary_slide c SLIDE_H sd with
    | error e =>
      rw [hs] at hok
      simp [isOkB] at hok
    | ok slide =>
      unfold add_summary_slide at hs
      dsimp only at hs
      cases hsi : summaryItems sd with
      | error e => rw [hsi] at hs; cases hs
      | ok triple =>
        rw [hsi] at hs
        obtain ⟨dsI, kfI, rcI⟩ := triple
        injection hs with hs'
        subst hs'
        interval_cases i
        · dsimp only
          refine congrArg some ?_
          push_cast
          ring
        · dsimp only
          refine congrArg some ?_
          push_cast
          ring
        · dsimp only
          refine congrArg some ?_
          push_cast
          ring

/-- Witness for C5: box 1 of a two-app comparison slide and column 2 of a
summary slide on the 16 inch canvas sit at the centring formula. -/
theorem box_centering_witness :
    cmpBoxLeftOf (Inches 16) "競品比較" [appCmp, appCmpB] 1 =
      some ((Inches 16 - ((([appCmp, appCmpB] : List PyVal).length : ℚ) * Inches 4.5 +
        ((([appCmp, appCmpB] : List PyVal).length : ℚ) - 1) * Inches 0.5)) / 2 +
        ((1 : Nat) : ℚ) * (Inches 4.5 + Inches 0.5)) ∧
    sumBoxLeftOf (Inches 16) summaryA 2 =
      some ((Inches 16 - (3 * Inches 4.5 + 2 * Inches 0.7)) / 2 +
        ((2 : Nat) : ℚ) * (Inches 4.5 + Inches 0.7)) :=
  ⟨box_centering.1 (Inches 16) "競品比較" [appCmp, appCmpB] 1 (by decide) (by rfl),
   box_centering.2 (Inches 16) summaryA 2 (by decide) (by rfl)⟩

/-- C6 (amended): a comparison slide for N app summaries carries exactly N
boxes, all of width 4.5 inches, horizontally centred as a group with equal
gaps, and each box renders exactly the paragraph with its app name: the
comparison-content hook of the source is an empty stub and contributes no
further content. -/
theorem comparison_boxes_render (c : ℚ) (title : String) (apps : List PyVal)
    (hok : isOkB (add_comparison_slide c SLIDE_H title apps) = true) :
    ∃ slide, add_comparison_slide c SLIDE_H title apps = .ok slide ∧
      (slide.shapes.drop 1).length = apps.length ∧
      (∀ i, i < apps.length →
        cmpBoxWidthOf c title apps i = some (Inches 4.5) ∧
        cmpBoxLeftOf c title apps i =
          some ((c - ((apps.length : ℚ) * Inches 4.5 +
            ((apps.length : ℚ) - 1) * Inches 0.5)) / 2 +
            (i : ℚ) * (Inches 4.5 + Inches 0.5)) ∧
        ∃ app nm, apps[i]? = some app ∧ lookupA app "name" = some (.pstr nm) ∧
          cmpBoxParasOf c title apps i =
            some [{ text := nm, size := Pt 20, bold := true, align := some .center }]) ∧
      (∀ tf a, add_comparison_content tf a = tf) := by
  cases hs : add_comparison_slide c SLIDE_H title apps with
  | error e =>
    rw [hs] at hok
    simp [isOkB] at hok
  | ok slide =>
    refine ⟨slide, rfl, ?_, ?_, fun tf a => rfl⟩
    · unfold add_comparison_slide at hs
      dsimp only at hs
      cases hcb : comparisonBoxes ((c - (Inches 4.5 * (apps.length : ℚ) +
          Inches 0.5 * ((apps.length : ℚ) - 1))) / 2) (Inches 2) (Inches 4.5)
          (Inches 6) (Inches 0.5) 0 apps with
      | error e => rw [hcb] at hs; cases hs
      | ok boxes =>
        rw [hcb] at hs
        injection hs with hs'
        subst hs'
        obtain ⟨hlen, _⟩ := comparisonBoxes_ok 0 apps boxes hcb
        simpa using hlen
    · intro i hi
      unfold add_comparison_slide at hs
      dsimp only at hs
      cases hcb : comparisonBoxes ((c - (Inches 4.5 * (apps.length : ℚ) +
          Inches 0.5 * ((apps.length : ℚ) - 1))) / 2) (Inches 2) (Inches 4.5)
          (Inches 6) (Inches 0.5) 0 apps with
      | error e => rw [hcb] at hs; cases hs
      | ok boxes =>
        rw [hcb] at hs
        injection hs with hs'
        obtain ⟨hlen, hidx⟩ := comparisonBoxes_ok 0 apps boxes hcb
        obtain ⟨app, nm, l, happ, hnm, hbox, hl⟩ := hidx i hi
        have hslide : add_comparison_slide c SLIDE_H title apps =
            .ok { kind := .comparison, layout := 1,
                  phTitle := some { text := title, size := Pt 36,
                                    color := some (30, 144, 255) },
                  shapes := bgRect c SLIDE_H (255, 255, 255) :: boxes } := by
          unfold add_comparison_slide
          dsimp only
          rw [hcb]
        refine ⟨?_, ?_, app, nm, happ, hnm, ?_⟩
        · unfold cmpBoxWidthOf
          rw [hslide]
          dsimp only [List.drop]
          rw [hbox]
        · unfold cmpBoxLeftOf
          rw [hslide]
          dsimp only [List.drop]
          rw [hbox, hl]
          push_cast
          ring_nf
        · unfold cmpBoxParasOf
          rw [hslide]
          dsimp only [List.drop]
          rw [hbox]

/-- Witness for C6 (amended) at a one-app comparison slide. -/
theorem comparison_boxes_render_witness :
    ∃ slide, add_comparison_slide (Inches 16) SLIDE_H "競品比較" [appCmp] = .ok slide ∧
      (slide.shapes.drop 1).length = ([appCmp] : List PyVal).length ∧
      (∀ i, i < ([appCmp] : List PyVal).length →
        cmpBoxWidthOf (Inches 16) "競品比較" [appCmp] i = some (Inches 4.5) ∧
        cmpBoxLeftOf (Inches 16) "競品比較" [appCmp] i =
          some ((Inches 16 - ((([appCmp] : List PyVal).length : ℚ) * Inches 4.5 +
            ((([appCmp] : List PyVal).length : ℚ) - 1) * Inches 0.5)) / 2 +
            (i : ℚ) * (Inches 4.5 + Inches 0.5)) ∧
        ∃ app nm, ([appCmp] : List PyVal)[i]? = some app ∧
          lookupA app "name" = some (.pstr nm) ∧
          cmpBoxParasOf (Inches 16) "競品比較" [appCmp] i =
            some [{ text := nm, size := Pt 20, bold := true, align := some .center }]) ∧
      (∀ tf a, add_comparison_content tf a = tf) :=
  comparison_boxes_render (Inches 16) "競品比較" [appCmp] (by rfl)

/-- C6 counterexample: the single box of the comparison slide for a concrete
app that does carry comparison data holds exactly one paragraph, the app
name: its comparison content is not rendered. -/
theorem comparison_content_counterexample :
    cmpBoxParasOf (Inches 16) "競品比較" [appCmp] 0 =
      some [{ text := "AppA", size := Pt 20, bold := true,
              align := some PAlign.center }] ∧
    lookupA appCmp "comparison" = some (.plist [.pstr "行動支付"]) :=
  ⟨rfl, rfl⟩

/-! C1: the deck produced for a valid report is title slide, four slides per
app (header, Overview, UX Analysis, Review Analysis), the conditional
summary slide, and the ending slide, in that order. -/

theorem add_app_header_slide_kind (fetch : Fetch) (w h : ℚ) (name : PyVal)
    (logo : Option PyVal) :
    (add_app_header_slide fetch w h name logo).kind = .appHeader := by
  unfold add_app_header_slide
  cases logo with
  | none => rfl
  | some u =>
    cases hb : pyTruthy u with
    | false =>
      simp only [hb, Bool.false_eq_true, if_false]
      try rfl
    | true =>
      simp only [hb, if_true]
      cases hf : fetch u name <;> rfl

theorem add_app_header_slide_mainTitle (fetch : Fetch) (w h : ℚ) (name : PyVal)
    (logo : Option PyVal) :
    slideMainTitle (add_app_header_slide fetch w h name logo) =
      formatVal name ++ " 應用程式分析" := by
  unfold add_app_header_slide
  cases logo with
  | none => rfl
  | some u =>
    cases hb : pyTruthy u with
    | false =>
      simp only [hb, Bool.false_eq_true, if_false]
      rfl
    | true =>
      simp only [hb, if_true]
      cases hf : fetch u name <;> rfl

theorem add_content_slide_kind (fetch : Fetch) (w h : ℚ) (title : String)
    (content : List (String × PyVal)) (icon : Option PyVal) (name : PyVal) :
    (add_content_slide fetch w h title content icon name).kind = .content := rfl

theorem add_content_slide_mainTitle (fetch : Fetch) (w h : ℚ) (title : String)
    (content : List (String × PyVal)) (icon : Option PyVal) (name : PyVal) :
    slideMainTitle (add_content_slide fetch w h title content icon name) = title := by
  unfold add_content_slide slideMainTitle
  cases icon with
  | none => rfl
  | some u =>
    cases hb : pyTruthy u && pyTruthy name with
    | false =>
      simp only [hb, Bool.false_eq_true, if_false]
      rfl
    | true =>
      simp only [hb, if_true]
      cases hf : fetch u name <;> rfl

/-- A successful app block is the header slide followed by the three content
slides, whose headings carry the app name and the fixed Overview, UX
Analysis and Review Analysis suffixes in that order. -/
theorem add_app_analysis_slide_ok_struct {fetch : Fetch} {app : PyVal}
    {slides : List Slide} (h : add_app_analysis_slide fetch app = .ok slides) :
    ∃ nm, lookupA app "name" = some nm ∧
      slides.map Slide.kind = [.appHeader, .content, .content, .content] ∧
      slides.map slideMainTitle =
        [formatVal nm ++ " 應用程式分析", formatVal nm ++ " - 概述",
         formatVal nm ++ " - 用戶體驗分析", formatVal nm ++ " - 評論分析"] := by
  unfold add_app_analysis_slide at h
  cases hn : lookupE app "name" with
  | error e => rw [hn] at h; cases h
  | ok nm =>
    rw [hn] at h
    dsimp only at h
    cases ho : buildOverviewContent app with
    | error e => rw [ho] at h; cases h
    | ok oc =>
      rw [ho] at h
      dsimp only at h
      cases hu : buildUxContent app with
      | error e => rw [hu] at h; cases h
      | ok uc =>
        rw [hu] at h
        dsimp only at h
        cases hr : buildReviewContent app with
        | error e => rw [hr] at h; cases h
        | ok rc =>
          rw [hr] at h
          dsimp only at h
          injection h with h'
          subst h'
          have hnm : lookupA app "name" = some nm := by
            unfold lookupE at hn
            cases hla : lookupA app "name" with
            | none => rw [hla] at hn; cases hn
            | some v =>
              rw [hla] at hn
              injection hn with h2
              rw [h2]
          refine ⟨nm, hnm, ?_, ?_⟩
          · simp [add_app_header_slide_kind, add_content_slide_kind]
          · simp [add_app_header_slide_mainTitle, add_content_slide_mainTitle]

/-- The per-app loop: when every app block renders, the loop yields the
four-slide blocks in input order. -/
theorem exMapM_blocks {fetch : Fetch} :
    ∀ (appsL names : List PyVal),
      appsL.map (fun a => lookupA a "name") = names.map some →
      appsL.all (fun a => isOkB (add_app_analysis_slide fetch a)) = true →
      ∃ blocks, exMapM (add_app_analysis_slide fetch) appsL = .ok blocks ∧
        blocks.flatten.map Slide.kind =
          (names.map (fun _ => [SlideKind.appHeader, .content, .content, .content])).flatten ∧
        blocks.flatten.map slideMainTitle =
          (names.map (fun nm => [formatVal nm ++ " 應用程式分析", formatVal nm ++ " - 概述",
            formatVal nm ++ " - 用戶體驗分析", formatVal nm ++ " - 評論分析"])).flatten ∧
        blocks.flatten.length = 4 * appsL.length := by
  intro appsL
  induction appsL with
  | nil =>
    intro names hmap hall
    have hnil : names = [] := by
      cases names with
      | nil => rfl
      | cons x xs => cases hmap
    subst hnil
    exact ⟨[], rfl, rfl, rfl, rfl⟩
  | cons a rest ih =>
    intro names hmap hall
    cases names with
    | nil => cases hmap
    | cons nm nrest =>
      simp only [List.map_cons, List.cons.injEq] at hmap
      obtain ⟨hhead, htail⟩ := hmap
      simp only [List.all_cons, Bool.and_eq_true] at hall
      obtain ⟨hoka, hallr⟩ := hall
      cases ha : add_app_analysis_slide fetch a with
      | error e => rw [ha] at hoka; simp [isOkB] at hoka
      | ok slides =>
        obtain ⟨nm', hnm', hkinds, htitles⟩ := add_app_analysis_slide_ok_struct ha
        have heq : nm' = nm := by
          rw [hhead] at hnm'
          injection hnm' with h2
          exact h2.symm
        subst heq
        obtain ⟨blocks, hmm, hk, htt, hl⟩ := ih nrest htail hallr
        have hlen4 : slides.length = 4 := by
          have := congrArg List.length hkinds
          simpa using this
        refine ⟨slides :: blocks, ?_, ?_, ?_, ?_⟩
        · unfold exMapM
          rw [ha, hmm]
        · simp [hkinds, hk]
        · simp [htitles, htt]
        · simp only [List.flatten_cons, List.length_append, hlen4, hl, List.length_cons]
          ring

theorem add_ending_slide_kind (w h : ℚ) : (add_ending_slide w h).kind = .ending := rfl

theorem add_ending_slide_mainTitle (w h : ℚ) :
    slideMainTitle (add_ending_slide w h) = "謝謝聆聽" := rfl

theorem titleStep_ok {data : List (String × PyVal)} {t d : String}
    (ht : lookupD data "title" = some (.pstr t))
    (hd : lookupD data "date" = some (.pstr d)) :
    ∃ ts, titleStep data = .ok ts ∧ ts.kind = .title ∧ slideMainTitle ts = t := by
  unfold titleStep
  rw [ht, hd]
  exact ⟨_, rfl, rfl, rfl⟩

theorem add_summary_slide_ok_struct {w h : ℚ} {sd : PyVal} {sl : Slide}
    (hs : add_summary_slide w h sd = .ok sl) :
    sl.kind = .summary ∧ slideMainTitle sl = "競品分析總結" := by
  unfold add_summary_slide at hs
  dsimp only at hs
  cases hsi : summaryItems sd with
  | error e => rw [hsi] at hs; cases hs
  | ok trip =>
    rw [hsi] at hs
    obtain ⟨a, b, c⟩ := trip
    injection hs with h'
    subst h'
    exact ⟨rfl, rfl⟩

theorem summaryStep_ok_struct {data : List (String × PyVal)} {ss : List Slide}
    (h : summaryStep data = .ok ss) :
    ss.map Slide.kind = (if hasKeyD data "summary" then [SlideKind.summary] else []) ∧
    ss.map slideMainTitle = (if hasKeyD data "summary" then ["競品分析總結"] else []) ∧
    ss.length = (if hasKeyD data "summary" then 1 else 0) := by
  unfold summaryStep at h
  cases hk : hasKeyD data "summary" with
  | false =>
    rw [hk] at h
    simp only [Bool.false_eq_true, if_false] at h
    injection h with h'
    subst h'
    simp [hk]
  | true =>
    rw [hk] at h
    simp only [if_true] at h
    split at h
    · split at h
      · injection h with h'
        subst h'
        rename_i sd hsd sl hsl
        obtain ⟨hki, hmt⟩ := add_summary_slide_ok_struct hsl
        simp [hk, hki, hmt]
      · cases h
    · cases h

/-- C1: for a report that passes validation, whose title and date are
strings, whose apps value is a list, and whose per-slide steps all succeed,
the produced deck is exactly one title slide, then for each app in input
order one header slide followed by the three content slides titled Overview,
UX Analysis, Review Analysis, then one summary slide exactly when the
summary key is present, then one ending slide: in total
1 + 4 * N + (1 if summary else 0) + 1 slides in that order. -/
theorem deck_structure (fetch : Fetch) (data : List (String × PyVal))
    (path : String) (t d : String) (appsL names : List PyVal)
    (ht : lookupD data "title" = some (.pstr t))
    (hd : lookupD data "date" = some (.pstr d))
    (ha : lookupD data "apps" = some (.plist appsL))
    (hnames : appsL.map (fun a => lookupA a "name") = names.map some)
    (happs : appsL.all (fun a => isOkB (add_app_analysis_slide fetch a)) = true)
    (hsum : isOkB (summaryStep data) = true) :
    ∃ deck, generate_competitive_analysis_ppt fetch data path = .ok (path, deck) ∧
      deck.map Slide.kind =
        [SlideKind.title] ++
          (names.map (fun _ => [SlideKind.appHeader, .content, .content, .content])).flatten ++
          (if hasKeyD data "summary" then [SlideKind.summary] else []) ++
          [SlideKind.ending] ∧
      deck.map slideMainTitle =
        [t] ++
          (names.map (fun nm => [formatVal nm ++ " 應用程式分析", formatVal nm ++ " - 概述",
            formatVal nm ++ " - 用戶體驗分析", formatVal nm ++ " - 評論分析"])).flatten ++
          (if hasKeyD data "summary" then ["競品分析總結"] else []) ++
          ["謝謝聆聽"] ∧
      deck.length = 1 + 4 * appsL.length +
        (if hasKeyD data "summary" then 1 else 0) + 1 := by
  have hmiss := missing_nil_of_hasKeys (hasKeyD_of_lookupD ht)
    (hasKeyD_of_lookupD hd) (hasKeyD_of_lookupD ha)
  obtain ⟨ts, hts, htsk, htst⟩ := titleStep_ok ht hd
  obtain ⟨blocks, hblocks, hbk, hbt, hbl⟩ := exMapM_blocks appsL names hnames happs
  have happsStep : appsStep fetch data = .ok blocks.flatten := by
    unfold appsStep
    rw [ha]
    dsimp only [pyIter]
    rw [hblocks]
  cases hss : summaryStep data with
  | error e =>
    rw [hss] at hsum
    simp [isOkB] at hsum
  | ok ss =>
    obtain ⟨hssk, hsst, hssl⟩ := summaryStep_ok_struct hss
    refine ⟨ts :: blocks.flatten ++ ss ++ [add_ending_slide SLIDE_W SLIDE_H], ?_, ?_, ?_, ?_⟩
    · unfold generate_competitive_analysis_ppt
      rw [buildDeck_eq_steps hmiss, hts, happsStep, hss]
      rfl
    · simp only [List.map_cons, List.map_append, List.map_cons, List.map_nil,
        htsk, hbk, hssk]
      simp [add_ending_slide_kind]
    · simp only [List.map_cons, List.map_append, List.map_cons, List.map_nil,
        htst, hbt, hsst]
      simp [add_ending_slide_mainTitle]
    · simp only [List.length_cons, List.length_append, List.length_cons,
        List.length_nil, hbl, hssl]
      omega

/-- Witness for C1 at the concrete one-app report without a summary: the
produced deck is title, header, Overview, UX Analysis, Review Analysis,
ending. -/
theorem deck_structure_witness :
    ∃ deck, generate_competitive_analysis_ppt fetchNone dataA "output/out.pptx" =
        .ok ("output/out.pptx", deck) ∧
      deck.map Slide.kind =
        [SlideKind.title] ++
          (([PyVal.pstr "AppA"] : List PyVal).map
            (fun _ => [SlideKind.appHeader, .content, .content, .content])).flatten ++
          (if hasKeyD dataA "summary" then [SlideKind.summary] else []) ++
          [SlideKind.ending] ∧
      deck.map slideMainTitle =
        ["競品分析"] ++
          (([PyVal.pstr "AppA"] : List PyVal).map
            (fun nm => [formatVal nm ++ " 應用程式分析", formatVal nm ++ " - 概述",
              formatVal nm ++ " - 用戶體驗分析", formatVal nm ++ " - 評論分析"])).flatten ++
          (if hasKeyD dataA "summary" then ["競品分析總結"] else []) ++
          ["謝謝聆聽"] ∧
      deck.length = 1 + 4 * ([appA] : List PyVal).length +
        (if hasKeyD dataA "summary" then 1 else 0) + 1 :=
  deck_structure fetchNone dataA "output/out.pptx" "競品分析" "2025-01-01"
    [appA] [.pstr "AppA"] rfl rfl rfl rfl rfl rfl

end PPT
